import Mathlib

/-!
Verification of the Intent Router + Geodesic Distance Engine of `src/main.py`.

The Python code is shallowly embedded:
* strings are `String` / `List Char`; the specific Python string methods used
  by the code (`strip`, `lower`, `upper`, `title`, `in`) are modelled for the
  ASCII character range, which covers every string the router manipulates;
* the three regular expressions of the router are modelled by a small
  backtracking matcher (`tryMatch` / `searchFrom`) that follows Python `re`
  semantics for the constructs actually used: ordered alternation of literals,
  greedy and lazy one-or-more character classes, lazy `.*?`, and leftmost
  search (`re.search` tries start positions from the left, first success wins);
* the two external backends (`get_weather`, `_gen`) and the floating-point
  rendering `{nm:,.0f}` are parameters of `answer_query`: the router is proved
  for every choice of backend;
* `haversine_nm` is embedded over the real numbers (`Real.sin`, `Real.cos`,
  `Real.sqrt`, and an explicit `atan2` mirroring `math.atan2` on real inputs).
-/

namespace Maritime

/-! ### Python string primitives (ASCII fragment used by `main.py`) -/

/-- The characters stripped by Python `str.strip()` with no argument
(ASCII whitespace; also the characters matched by `\s` in the regexes). -/
def pyWsB (c : Char) : Bool :=
  c = ' ' || c = '\t' || c = '\n' || c = '\r' || c = '\x0b' || c = '\x0c'

/-- Python `str.strip()` on a character list. -/
def stripWs (s : List Char) : List Char :=
  ((s.dropWhile pyWsB).reverse.dropWhile pyWsB).reverse

/-- Python `str.strip()`. -/
def pyStrip (s : String) : String :=
  String.mk (stripWs s.data)

/-- Python `str.lower()` (ASCII). -/
def pyLower (s : String) : String :=
  String.mk (s.data.map Char.toLower)

/-- Python `str.upper()` (ASCII). -/
def pyUpper (s : String) : String :=
  String.mk (s.data.map Char.toUpper)

/-- Python `str.title()` (ASCII): an alphabetic character that follows an
alphabetic character is lowercased, any other alphabetic character is
uppercased. -/
def pyTitleAux : Bool → List Char → List Char
  | _, [] => []
  | prevAlpha, c :: cs =>
    (if c.isAlpha then (if prevAlpha then c.toLower else c.toUpper) else c)
      :: pyTitleAux c.isAlpha cs

/-- Python `str.title()`. -/
def pyTitle (s : String) : String :=
  String.mk (pyTitleAux false s.data)

/-- Python substring containment `needle in hay`. -/
def isSubstring (needle : List Char) : List Char → Bool
  | [] => needle.isPrefixOf []
  | c :: cs => needle.isPrefixOf (c :: cs) || isSubstring needle cs

/-! ### A backtracking regex matcher for the three patterns of `main.py` -/

/-- One regex item. `lit` is an ordered alternation of literal strings,
`cls greedy p` is `[p]+` (greedy when `greedy = true`, lazy otherwise),
`anyLazy` is `.*?` (`.` does not match a newline). -/
inductive RItem where
  | lit : List (List Char) → RItem
  | cls : Bool → (Char → Bool) → RItem
  | anyLazy : RItem

/-- First `some` produced by `f` over `l`, in order (backtracking order). -/
def firstSome : List α → (α → Option β) → Option β
  | [], _ => none
  | a :: as, f =>
    match f a with
    | some b => some b
    | none => firstSome as f

/-- Match the item list at the start of `s` (the tail of `s` may be left
unconsumed, as with an unanchored Python pattern).  Returns the chunk of
characters consumed by each item. -/
def tryMatch : List RItem → List Char → Option (List (List Char))
  | [], _ => some []
  | RItem.lit alts :: rest, s =>
    firstSome alts fun alt =>
      if alt.isPrefixOf s then
        (tryMatch rest (s.drop alt.length)).map (alt :: ·)
      else none
  | RItem.cls greedy p :: rest, s =>
    let n := (s.takeWhile p).length
    let ks := if greedy then (List.range n).map (n - ·) else (List.range n).map (· + 1)
    firstSome ks fun k =>
      (tryMatch rest (s.drop k)).map (s.take k :: ·)
  | RItem.anyLazy :: rest, s =>
    let n := (s.takeWhile (fun c => c ≠ '\n')).length
    firstSome (List.range (n + 1)) fun k =>
      (tryMatch rest (s.drop k)).map (s.take k :: ·)

/-- Model of `re.search`: try every start position from the left, first success wins. -/
def searchFrom (items : List RItem) : List Char → Option (List (List Char))
  | [] => tryMatch items []
  | c :: cs =>
    match tryMatch items (c :: cs) with
    | some r => some r
    | none => searchFrom items cs

/-! ### The two distance patterns (`parse_distance_query`, main.py lines 83-97) -/

/-- The character class `[a-z\s]`. -/
def azws (c : Char) : Bool :=
  ('a' ≤ c && c ≤ 'z') || pyWsB c

/-- Pattern `distance.*?(?:between|from)\s+([a-z\s]+?)\s+(?:and|to)\s+([a-z\s]+)`.
The first capture group is the chunk of item 4, the second that of item 8. -/
def distPat1 : List RItem :=
  [RItem.lit ["distance".data], RItem.anyLazy,
   RItem.lit ["between".data, "from".data], RItem.cls true pyWsB,
   RItem.cls false azws, RItem.cls true pyWsB,
   RItem.lit ["and".data, "to".data], RItem.cls true pyWsB,
   RItem.cls true azws]

/-- Pattern `([a-z\s]+?)\s+(?:to|->|→)\s+([a-z\s]+)`.
The first capture group is the chunk of item 0, the second that of item 4. -/
def distPat2 : List RItem :=
  [RItem.cls false azws, RItem.cls true pyWsB,
   RItem.lit ["to".data, "->".data, "→".data], RItem.cls true pyWsB,
   RItem.cls true azws]

/-- Function `parse_distance_query` (main.py lines 83-97): lowercase the query, try the
two patterns in order, return the whitespace-stripped capture groups, or a
pair of empty strings when neither pattern matches. -/
def parse_distance_query (q : String) : String × String :=
  let ql := (pyLower q).data
  match searchFrom distPat1 ql with
  | some ch =>
    (String.mk (stripWs (ch.getD 4 [])), String.mk (stripWs (ch.getD 8 [])))
  | none =>
    match searchFrom distPat2 ql with
    | some ch =>
      (String.mk (stripWs (ch.getD 0 [])), String.mk (stripWs (ch.getD 4 [])))
    | none => ("", "")

/-! ### Weather city extraction (main.py lines 208-216) -/

/-- The character class `[a-zA-Z\s\-]` of the weather regex. -/
def azsh (c : Char) : Bool :=
  c.isAlpha || pyWsB c || c = '-'

/-- Matching `(?:in|at)\s+([a-zA-Z\s\-]+)$` (with `re.IGNORECASE`) at the head
of `s`: the first two characters must spell `in` or `at` case-insensitively and
the entire remaining suffix must consist of class characters beginning with at
least one whitespace character followed by at least one more character.  The
capture group is the suffix after the maximal leading whitespace run when that
is nonempty, otherwise the single last whitespace character (the greedy `\s+`
gives one character back so that the group is nonempty). -/
def tryInAt : List Char → Option (List Char)
  | c1 :: c2 :: r :: rs =>
    if (c1.toLower = 'i' ∧ c2.toLower = 'n') ∨ (c1.toLower = 'a' ∧ c2.toLower = 't') then
      if pyWsB r ∧ (r :: rs).all azsh ∧ rs ≠ [] then
        let g := (r :: rs).dropWhile pyWsB
        some (if g = [] then [((r :: rs).getLast?).getD ' '] else g)
      else none
    else none
  | _ => none

/-- Search of the weather regex: leftmost position where `tryInAt`
succeeds. -/
def findInAt : List Char → Option (List Char)
  | [] => none
  | c :: cs =>
    match tryInAt (c :: cs) with
    | some g => some g
    | none => findInAt cs

/-- The characters stripped from the captured city, `strip(" .!?,")`. -/
def cityPunctB (c : Char) : Bool :=
  c = ' ' || c = '.' || c = '!' || c = '?' || c = ','

/-- Python `strip(" .!?,")` on a character list. -/
def stripCity (s : List Char) : List Char :=
  ((s.dropWhile cityPunctB).reverse.dropWhile cityPunctB).reverse

/-- The token class of `re.split(r"[^A-Za-z\-]+", q)`: letters and hyphens. -/
def tokChar (c : Char) : Bool :=
  c.isAlpha || c = '-'

/-- The list `[t for t in re.split(r"[^A-Za-z\-]+", q) if t]`: the maximal nonempty
runs of letters/hyphens. -/
def pyTokens (q : String) : List (List Char) :=
  (q.data.splitOnP (fun c => !tokChar c)).filter (· ≠ [])

/-- The city extracted by the weather branch of `answer_query`
(main.py lines 209-216): trailing `in`/`at` clause first, then the last
token, then the literal `"Singapore"`. -/
def weatherCity (q : String) : String :=
  match findInAt q.data with
  | some g => String.mk (stripCity g)
  | none =>
    match (pyTokens q).getLast? with
    | some t => String.mk t
    | none => "Singapore"

/-! ### Port gazetteer (main.py lines 60-70) -/

/-- Table `PORTS`: the fixed lowercase port table.  The coordinate literals of the
source are exact decimal fractions, kept here as rationals. -/
def PORTS : List (String × ℚ × ℚ) :=
  [("singapore", (1.264, 103.822)),
   ("rotterdam", (51.955, 4.133)),
   ("mumbai", (18.95, 72.84)),
   ("dubai", (25.27, 55.29)),
   ("shanghai", (31.40, 121.50)),
   ("los angeles", (33.74, -118.26)),
   ("new york", (40.68, -74.04)),
   ("suez", (29.97, 32.55)),
   ("cape town", (-33.92, 18.44))]

/-- Dictionary lookup `PORTS[name]` / membership `name in PORTS`. -/
def portsLookup (k : String) : Option (ℚ × ℚ) :=
  (PORTS.find? (fun e => e.1 = k)).map (·.2)

/-! ### Prompts and the router (main.py lines 145-150 and 197-246) -/

/-- String `SYSTEM_STYLE` (main.py lines 145-150). -/
def SYSTEM_STYLE : String :=
  "You are a Maritime AI Assistant. Be concise, structured, and practical.\nIf asked for laytime/demurrage, show step-by-step items and clear totals.\nIf asked for CP clauses, identify risks & highlight must-check clauses.\nWhen summarizing docs, extract key terms, obligations, time bars, and demurrage rates if present.\nUse bullet points & short sections.\n"

/-- A chat history entry: a Python dict read with `m.get("role", "user")` and
`m.get("content", "")`, so both keys may be absent. -/
structure ChatMsg where
  role : Option String
  content : Option String

/-- The condensed rendering of the last (at most) 8 history entries
(main.py lines 233-238): `f"{role.upper()}: {content}\n"` appended per entry. -/
def historyText (h : List ChatMsg) : String :=
  String.join ((h.drop (h.length - 8)).map fun m =>
    pyUpper (m.role.getD "user") ++ ": " ++ m.content.getD "" ++ "\n")

/-- The generic-branch prompt (main.py lines 240-245). -/
def genericPrompt (q : String) (h : List ChatMsg) : String :=
  SYSTEM_STYLE ++ "\n\n" ++ "Chat history (condensed):\n" ++ historyText h
    ++ "\n" ++ "USER: " ++ q ++ "\n\n"
    ++ "Respond now with clear sections and bullet points if helpful."

/-- The distance-branch prompt (main.py lines 223-229); `fmtnm` stands for the
float rendering `f"{nm:,.0f}"` of the haversine distance, which is a parameter
of the embedding (floating-point formatting is outside the real-number model). -/
def distancePrompt (a b fmtnm : String) : String :=
  SYSTEM_STYLE ++ "\n" ++ "User asked distance between " ++ pyTitle a
    ++ " and " ++ pyTitle b ++ ".\n"
    ++ "Great-circle distance (approx): " ++ fmtnm ++ " nautical miles.\n\n"
    ++ "Now add: routing note (Suez/Cape if relevant), ETA at 12/14 knots, "
    ++ "and a brief fuel planning reminder."

/-- The weather trigger (main.py line 208): `"weather" in ql or "forecast" in ql`. -/
def weatherTrig (ql : String) : Bool :=
  isSubstring "weather".data ql.data || isSubstring "forecast".data ql.data

/-- The distance-branch condition (main.py line 220):
`a and b and a in PORTS and b in PORTS`. -/
def distCond (q : String) : Bool :=
  let p := parse_distance_query q
  p.1 ≠ "" && p.2 ≠ "" && (portsLookup p.1).isSome && (portsLookup p.2).isSome

/-- Router `answer_query` (main.py lines 197-246).  `gw` is the weather backend
(`get_weather`), `gen` the language-model backend (`_gen`), and `fmtnm` the
float rendering of the haversine distance for the two resolved ports (the only
use the prompt makes of the numeric value).  The history parameter models the
Python `chat_history` (absent/`None` is the empty list). -/
def answer_query (gw gen : String → String) (fmtnm : String → String → String)
    (user_message : String) (chat_history : List ChatMsg) : String :=
  let q := pyStrip user_message
  let ql := pyLower q
  if weatherTrig ql then gw (weatherCity q)
  else if distCond q then
    let p := parse_distance_query q
    gen (distancePrompt p.1 p.2 (fmtnm p.1 p.2))
  else gen (genericPrompt q chat_history)

/-! ### Geometry (main.py lines 72-81), embedded over the real numbers -/

open Real in
/-- Model of `math.atan2 y x` on real inputs (the IEEE signed-zero distinctions do not
exist over `ℝ`; `atan2 0 0 = 0` as in `math.atan2(0.0, 0.0)`). -/
noncomputable def atan2 (y x : ℝ) : ℝ :=
  if 0 < x then arctan (y / x)
  else if x < 0 then
    (if 0 ≤ y then arctan (y / x) + π else arctan (y / x) - π)
  else if 0 < y then π / 2
  else if y < 0 then -(π / 2)
  else 0

/-- Conversion `math.radians x = x * pi / 180`. -/
noncomputable def radians (x : ℝ) : ℝ := x * Real.pi / 180

/-- The intermediate value `a` of `haversine_nm` (main.py line 79). -/
noncomputable def haversineA (lat1 lon1 lat2 lon2 : ℝ) : ℝ :=
  Real.sin (radians (lat2 - lat1) / 2) ^ 2 +
    Real.cos (radians lat1) * Real.cos (radians lat2) *
      Real.sin (radians (lon2 - lon1) / 2) ^ 2

/-- Function `haversine_nm` (main.py lines 72-81): great-circle distance in nautical
miles, `R_nm * c` with `R_nm = 6371.0 * 0.539957` and
`c = 2 * atan2 (sqrt a) (sqrt (1 - a))`. -/
noncomputable def haversine_nm (lat1 lon1 lat2 lon2 : ℝ) : ℝ :=
  6371.0 * 0.539957 *
    (2 * atan2 (Real.sqrt (haversineA lat1 lon1 lat2 lon2))
      (Real.sqrt (1 - haversineA lat1 lon1 lat2 lon2)))

/-! ### Helper lemmas about `atan2` on the closed first quadrant -/

lemma atan2_of_pos {y x : ℝ} (hx : 0 < x) : atan2 y x = Real.arctan (y / x) := by
  unfold atan2
  rw [if_pos hx]

lemma atan2_nonneg {y x : ℝ} (hy : 0 ≤ y) (hx : 0 ≤ x) : 0 ≤ atan2 y x := by
  rcases eq_or_lt_of_le hx with he | hpos
  · unfold atan2
    rw [← he, if_neg (lt_irrefl 0), if_neg (lt_irrefl 0)]
    split_ifs with hy1 hy2
    · positivity
    · exact absurd hy2 (not_lt.mpr hy)
    · exact le_refl 0
  · rw [atan2_of_pos hpos]
    have h0 : (0:ℝ) ≤ y / x := div_nonneg hy (le_of_lt hpos)
    have := Real.arctan_strictMono.monotone h0
    rwa [Real.arctan_zero] at this

lemma atan2_le_pi_div_two {y x : ℝ} (hy : 0 ≤ y) (hx : 0 ≤ x) :
    atan2 y x ≤ Real.pi / 2 := by
  rcases eq_or_lt_of_le hx with he | hpos
  · unfold atan2
    rw [← he, if_neg (lt_irrefl 0), if_neg (lt_irrefl 0)]
    split_ifs with hy1 hy2
    · exact le_refl _
    · exact absurd hy2 (not_lt.mpr hy)
    · positivity
  · rw [atan2_of_pos hpos]
    exact le_of_lt (Real.arctan_lt_pi_div_two _)

/-! ### Bounds on the haversine intermediate value `a` -/

lemma cos_radians_nonneg {lat : ℝ} (h1 : -90 ≤ lat) (h2 : lat ≤ 90) :
    0 ≤ Real.cos (radians lat) := by
  have hpi : 0 < Real.pi := Real.pi_pos
  apply Real.cos_nonneg_of_mem_Icc
  constructor
  · unfold radians; nlinarith
  · unfold radians; nlinarith

lemma haversineA_nonneg {lat1 lon1 lat2 lon2 : ℝ}
    (h1 : -90 ≤ lat1) (h2 : lat1 ≤ 90) (h3 : -90 ≤ lat2) (h4 : lat2 ≤ 90) :
    0 ≤ haversineA lat1 lon1 lat2 lon2 := by
  have c1 := cos_radians_nonneg h1 h2
  have c2 := cos_radians_nonneg h3 h4
  have s1 := sq_nonneg (Real.sin (radians (lat2 - lat1) / 2))
  have s2 := sq_nonneg (Real.sin (radians (lon2 - lon1) / 2))
  unfold haversineA
  positivity

lemma haversineA_le_one {lat1 lon1 lat2 lon2 : ℝ}
    (h1 : -90 ≤ lat1) (h2 : lat1 ≤ 90) (h3 : -90 ≤ lat2) (h4 : lat2 ≤ 90) :
    haversineA lat1 lon1 lat2 lon2 ≤ 1 := by
  have c1 := cos_radians_nonneg h1 h2
  have c2 := cos_radians_nonneg h3 h4
  have hδ : radians (lat2 - lat1) / 2 = (radians lat2 - radians lat1) / 2 := by
    unfold radians; ring
  have hs : Real.sin ((radians lat2 - radians lat1) / 2) ^ 2
      = 1 / 2 - Real.cos (radians lat2 - radians lat1) / 2 := by
    have h2x : 2 * ((radians lat2 - radians lat1) / 2)
        = radians lat2 - radians lat1 := by ring
    rw [Real.sin_sq_eq_half_sub, h2x]
  have hcs := Real.cos_sub (radians lat2) (radians lat1)
  have hca := Real.cos_add (radians lat1) (radians lat2)
  have hle := Real.cos_le_one (radians lat1 + radians lat2)
  have hsin2 := Real.sin_sq_le_one (radians (lon2 - lon1) / 2)
  have hsin0 := sq_nonneg (Real.sin (radians (lon2 - lon1) / 2))
  have hprod : 0 ≤ Real.cos (radians lat1) * Real.cos (radians lat2)
      * (1 - Real.sin (radians (lon2 - lon1) / 2) ^ 2) := by
    apply mul_nonneg (mul_nonneg c1 c2); linarith
  unfold haversineA
  rw [hδ, hs]
  nlinarith

/-! ### C7: symmetry of `haversine_nm` -/

/-- C7: for all coordinate pairs `A`, `B` (in particular all valid ones),
`haversine_nm A B = haversine_nm B A` — exactly, over the real-number
embedding of the formula. -/
theorem haversine_nm_symm (lat1 lon1 lat2 lon2 : ℝ) :
    haversine_nm lat1 lon1 lat2 lon2 = haversine_nm lat2 lon2 lat1 lon1 := by
  have hA : haversineA lat1 lon1 lat2 lon2 = haversineA lat2 lon2 lat1 lon1 := by
    unfold haversineA
    have e1 : radians (lat1 - lat2) / 2 = -(radians (lat2 - lat1) / 2) := by
      unfold radians; ring
    have e2 : radians (lon1 - lon2) / 2 = -(radians (lon2 - lon1) / 2) := by
      unfold radians; ring
    rw [e1, e2, Real.sin_neg, Real.sin_neg]
    ring
  unfold haversine_nm
  rw [hA]

/-! ### C8: the distance from a point to itself is zero -/

/-- C8: for every coordinate pair `A`, `haversine_nm A A = 0` — exactly, over
the real-number embedding: the intermediate `a` collapses to `0`, so the
central angle `2 * atan2 0 1` is `0`. -/
theorem haversine_nm_self (lat lon : ℝ) : haversine_nm lat lon lat lon = 0 := by
  have hA : haversineA lat lon lat lon = 0 := by
    unfold haversineA radians
    simp
  unfold haversine_nm
  rw [hA]
  have h2 : atan2 (Real.sqrt 0) (Real.sqrt (1 - 0)) = 0 := by
    rw [show (1:ℝ) - 0 = 1 by ring, Real.sqrt_zero, Real.sqrt_one,
      atan2_of_pos one_pos]
    simp [Real.arctan_zero]
  rw [h2]
  ring

/-! ### C6 and C10: safety and range of `haversine_nm` -/

/-- C6: for every pair of valid coordinate pairs (latitudes in −90..90,
longitudes in −180..180), `haversine_nm` yields a nonnegative result and hits
no error condition: both square-root arguments, `a` and `1 − a`, are
nonnegative.  (Over the real-number embedding every value is finite;
the two square-root facts are exactly what keeps `math.sqrt` from raising.) -/
theorem haversine_nm_safe (lat1 lon1 lat2 lon2 : ℝ)
    (h1 : -90 ≤ lat1) (h2 : lat1 ≤ 90) (h3 : -90 ≤ lat2) (h4 : lat2 ≤ 90)
    (h5 : -180 ≤ lon1) (h6 : lon1 ≤ 180) (h7 : -180 ≤ lon2) (h8 : lon2 ≤ 180) :
    0 ≤ haversine_nm lat1 lon1 lat2 lon2 ∧
      0 ≤ haversineA lat1 lon1 lat2 lon2 ∧
      0 ≤ 1 - haversineA lat1 lon1 lat2 lon2 := by
  have ha0 := @haversineA_nonneg lat1 lon1 lat2 lon2 h1 h2 h3 h4
  have ha1 := @haversineA_le_one lat1 lon1 lat2 lon2 h1 h2 h3 h4
  refine ⟨?_, ha0, by linarith⟩
  have hn := atan2_nonneg (Real.sqrt_nonneg (haversineA lat1 lon1 lat2 lon2))
    (Real.sqrt_nonneg (1 - haversineA lat1 lon1 lat2 lon2))
  unfold haversine_nm
  nlinarith

/-- Witness for C6 at the gazetteer coordinates of Singapore and Rotterdam. -/
theorem haversine_nm_safe_witness :
    0 ≤ haversine_nm 1.264 103.822 51.955 4.133 ∧
      0 ≤ haversineA 1.264 103.822 51.955 4.133 ∧
      0 ≤ 1 - haversineA 1.264 103.822 51.955 4.133 :=
  haversine_nm_safe 1.264 103.822 51.955 4.133 (by norm_num) (by norm_num)
    (by norm_num) (by norm_num) (by norm_num) (by norm_num) (by norm_num)
    (by norm_num)

/-- C10: for valid inputs the result is bounded above by
`π * 6371 * 0.539957` (half the Earth circumference of the model, about
10,807 nm), because the central angle `2 * atan2 (sqrt a) (sqrt (1-a))`
lies in `[0, π]`. -/
theorem haversine_nm_upper_bound (lat1 lon1 lat2 lon2 : ℝ)
    (h1 : -90 ≤ lat1) (h2 : lat1 ≤ 90) (h3 : -90 ≤ lat2) (h4 : lat2 ≤ 90)
    (h5 : -180 ≤ lon1) (h6 : lon1 ≤ 180) (h7 : -180 ≤ lon2) (h8 : lon2 ≤ 180) :
    haversine_nm lat1 lon1 lat2 lon2 ≤ Real.pi * 6371 * 0.539957 := by
  have hu := atan2_le_pi_div_two
    (Real.sqrt_nonneg (haversineA lat1 lon1 lat2 lon2))
    (Real.sqrt_nonneg (1 - haversineA lat1 lon1 lat2 lon2))
  unfold haversine_nm
  nlinarith

/-- Witness for C10 at the gazetteer coordinates of Mumbai and Dubai. -/
theorem haversine_nm_upper_bound_witness :
    haversine_nm 18.95 72.84 25.27 55.29 ≤ Real.pi * 6371 * 0.539957 :=
  haversine_nm_upper_bound 18.95 72.84 25.27 55.29 (by norm_num) (by norm_num)
    (by norm_num) (by norm_num) (by norm_num) (by norm_num) (by norm_num)
    (by norm_num)

/-! ### C1: fixed intent order of `answer_query` -/

/-- C1: `answer_query` checks intents in the fixed order Weather, Distance,
Generic, and exactly one branch produces the returned string: when the
lowercased stripped message contains `"weather"` or `"forecast"` the Weather
branch answers (regardless of any distance-shaped phrase); otherwise the
Distance branch answers exactly when its condition holds; otherwise the
Generic branch answers. -/
theorem answer_query_intent_order (gw gen : String → String)
    (fmtnm : String → String → String) (msg : String) (hist : List ChatMsg) :
    (weatherTrig (pyLower (pyStrip msg)) = true →
      answer_query gw gen fmtnm msg hist = gw (weatherCity (pyStrip msg))) ∧
    (weatherTrig (pyLower (pyStrip msg)) = false →
      distCond (pyStrip msg) = true →
      answer_query gw gen fmtnm msg hist =
        gen (distancePrompt (parse_distance_query (pyStrip msg)).1
          (parse_distance_query (pyStrip msg)).2
          (fmtnm (parse_distance_query (pyStrip msg)).1
            (parse_distance_query (pyStrip msg)).2))) ∧
    (weatherTrig (pyLower (pyStrip msg)) = false →
      distCond (pyStrip msg) = false →
      answer_query gw gen fmtnm msg hist =
        gen (genericPrompt (pyStrip msg) hist)) := by
  refine ⟨fun hw => ?_, fun hw hd => ?_, fun hw hd => ?_⟩
  · simp [answer_query, hw]
  · simp [answer_query, hw, hd]
  · simp [answer_query, hw, hd]

/-- Witness for C1: a message that contains both the weather trigger and a
distance-shaped phrase resolves to the Weather branch. -/
theorem answer_query_intent_order_witness :
    weatherTrig (pyLower (pyStrip "forecast: singapore to rotterdam")) = true ∧
    distCond (pyStrip "forecast: singapore to rotterdam") = true ∧
    parse_distance_query (pyStrip "forecast: singapore to rotterdam") =
      ("singapore", "rotterdam") ∧
    answer_query (fun s => "W:" ++ s) (fun _ => "G") (fun _ _ => "N")
      "forecast: singapore to rotterdam" [] = "W:rotterdam" := by
  refine ⟨by decide, by decide, by decide, ?_⟩
  have h := (answer_query_intent_order (fun s => "W:" ++ s) (fun _ => "G")
    (fun _ _ => "N") "forecast: singapore to rotterdam" []).1 (by decide)
  rw [h]
  decide

/-! ### C2: the gazetteer gate of the Distance branch -/

/-- C2: for a message that does not match the weather trigger, the Distance
branch is taken if and only if both extracted names are nonempty and are keys
of `PORTS`; otherwise the message falls through to the Generic branch, whose
prompt forwards the raw message to the language-model backend — no distinct
error value exists (the function always returns a backend string). -/
theorem distance_branch_gazetteer_gate (gw gen : String → String)
    (fmtnm : String → String → String) (msg : String) (hist : List ChatMsg)
    (hw : weatherTrig (pyLower (pyStrip msg)) = false) :
    (distCond (pyStrip msg) = true ↔
      (parse_distance_query (pyStrip msg)).1 ≠ "" ∧
      (parse_distance_query (pyStrip msg)).2 ≠ "" ∧
      (portsLookup (parse_distance_query (pyStrip msg)).1).isSome = true ∧
      (portsLookup (parse_distance_query (pyStrip msg)).2).isSome = true) ∧
    (distCond (pyStrip msg) = false →
      answer_query gw gen fmtnm msg hist =
        gen (genericPrompt (pyStrip msg) hist)) := by
  constructor
  · unfold distCond
    simp [Bool.and_eq_true, decide_eq_true_eq, and_assoc]
  · intro hd
    simp [answer_query, hw, hd]

/-- Witness for C2: a distance-shaped phrase with an unknown port falls
through to the Generic branch. -/
theorem distance_branch_gazetteer_gate_witness :
    parse_distance_query "distance between timbuktu and rotterdam" =
      ("timbuktu", "rotterdam") ∧
    (portsLookup "timbuktu").isSome = false ∧
    answer_query (fun s => "W:" ++ s) (fun s => "G:" ++ s) (fun _ _ => "N")
      "distance between timbuktu and rotterdam" [] =
      "G:" ++ genericPrompt (pyStrip "distance between timbuktu and rotterdam") [] := by
  refine ⟨by decide, by decide, ?_⟩
  exact (distance_branch_gazetteer_gate (fun s => "W:" ++ s) (fun s => "G:" ++ s)
    (fun _ _ => "N") "distance between timbuktu and rotterdam" [] (by decide)).2
    (by decide)

/-! ### C3: the three ordered weather-city extraction rules -/

/-- C3: on the weather branch the extracted city follows three ordered rules:
(a) a match of the trailing `(in|at)` clause yields its captured group trimmed
of the characters `" .!?,"` (so `"weather in New York"` yields `"New York"`);
(b) otherwise the last nonempty letters/hyphens token; (c) otherwise the
literal `"Singapore"`. -/
theorem weather_city_extraction_rules (gw gen : String → String)
    (fmtnm : String → String → String) (msg : String) (hist : List ChatMsg)
    (hw : weatherTrig (pyLower (pyStrip msg)) = true) :
    answer_query gw gen fmtnm msg hist = gw (weatherCity (pyStrip msg)) ∧
    (∀ g, findInAt (pyStrip msg).data = some g →
      weatherCity (pyStrip msg) = String.mk (stripCity g)) ∧
    (findInAt (pyStrip msg).data = none →
      ∀ t, (pyTokens (pyStrip msg)).getLast? = some t →
        weatherCity (pyStrip msg) = String.mk t) ∧
    (findInAt (pyStrip msg).data = none →
      (pyTokens (pyStrip msg)).getLast? = none →
      weatherCity (pyStrip msg) = "Singapore") ∧
    weatherCity "weather in New York" = "New York" := by
  refine ⟨by simp [answer_query, hw], fun g hg => ?_, fun hn t ht => ?_,
    fun hn ht => ?_, by decide⟩
  · unfold weatherCity
    rw [hg]
  · unfold weatherCity
    rw [hn, ht]
  · unfold weatherCity
    rw [hn, ht]

/-- Witness for C3 on the spec example `"weather in New York"`. -/
theorem weather_city_extraction_rules_witness :
    answer_query (fun s => "W:" ++ s) (fun s => s) (fun _ _ => "")
      "weather in New York" [] = "W:New York" := by
  have h := (weather_city_extraction_rules (fun s => "W:" ++ s) (fun s => s)
    (fun _ _ => "") "weather in New York" [] (by decide)).1
  rw [h]
  decide

/-! ### C9: the Generic branch reads only the trailing history window -/

lemma drop_last_idem (l : List α) (n : Nat) :
    (l.drop (l.length - n)).drop ((l.drop (l.length - n)).length - n) =
      l.drop (l.length - n) := by
  rw [List.length_drop]
  have h0 : l.length - (l.length - n) - n = 0 := by omega
  rw [h0, List.drop_zero]

/-- C9: on the Generic branch `answer_query` reads at most the last 8 history
entries (dropping everything before the last 8 leaves the result unchanged),
renders each as the uppercased role label, `": "`, the content and a newline,
joined in order into the prompt together with the fixed preamble and the raw
(stripped) user message.  The history is only read: the embedding is a pure
function of it. -/
theorem generic_branch_history_window (gw gen : String → String)
    (fmtnm : String → String → String) (msg : String) (hist : List ChatMsg)
    (hw : weatherTrig (pyLower (pyStrip msg)) = false)
    (hd : distCond (pyStrip msg) = false) :
    answer_query gw gen fmtnm msg hist =
      answer_query gw gen fmtnm msg (hist.drop (hist.length - 8)) ∧
    answer_query gw gen fmtnm msg hist =
      gen (genericPrompt (pyStrip msg) hist) ∧
    genericPrompt (pyStrip msg) hist =
      SYSTEM_STYLE ++ "\n\n" ++ "Chat history (condensed):\n"
        ++ historyText hist ++ "\n" ++ "USER: " ++ pyStrip msg ++ "\n\n"
        ++ "Respond now with clear sections and bullet points if helpful." ∧
    historyText hist = String.join ((hist.drop (hist.length - 8)).map fun m =>
      pyUpper (m.role.getD "user") ++ ": " ++ m.content.getD "" ++ "\n") := by
  have hht : historyText hist = historyText (hist.drop (hist.length - 8)) := by
    unfold historyText
    rw [drop_last_idem]
  refine ⟨?_, by simp [answer_query, hw, hd], rfl, rfl⟩
  simp only [answer_query, hw, hd, Bool.false_eq_true, if_false, genericPrompt, hht]

/-- Witness for C9: a 9-entry history gives the same answer as its last 8
entries. -/
theorem generic_branch_history_window_witness :
    answer_query (fun s => s) (fun s => s) (fun _ _ => "") "hello"
        (List.replicate 9 (ChatMsg.mk (some "user") (some "hi"))) =
      answer_query (fun s => s) (fun s => s) (fun _ _ => "") "hello"
        ((List.replicate 9 (ChatMsg.mk (some "user") (some "hi"))).drop 1) :=
  (generic_branch_history_window (fun s => s) (fun s => s) (fun _ _ => "")
    "hello" (List.replicate 9 (ChatMsg.mk (some "user") (some "hi")))
    (by decide) (by decide)).1

/-! ### C4: structure of `parse_distance_query` -/

/-- What the matcher guarantees about the chunk consumed by each item. -/
def chunkOK : RItem → List Char → Prop
  | RItem.lit alts, ch => ch ∈ alts
  | RItem.cls _ p, ch => ch.all p = true
  | RItem.anyLazy, _ => True

lemma firstSome_some {l : List α} {f : α → Option β} {b : β}
    (h : firstSome l f = some b) : ∃ a ∈ l, f a = some b := by
  induction l with
  | nil => simp [firstSome] at h
  | cons a as ih =>
    simp only [firstSome] at h
    split at h
    · next heq => exact ⟨a, by simp, by rw [heq]; exact congrArg some (Option.some.inj h)⟩
    · obtain ⟨a0, ha0, hfa⟩ := ih h
      exact ⟨a0, by simp [ha0], hfa⟩

lemma take_all_of_le_takeWhile {p : Char → Bool} :
    ∀ (s : List Char) (k : Nat), k ≤ (s.takeWhile p).length →
      (s.take k).all p = true := by
  intro s
  induction s with
  | nil =>
    intro k h
    simp only [List.takeWhile_nil, List.length_nil, Nat.le_zero] at h
    subst h
    simp
  | cons c cs ih =>
    intro k h
    by_cases hp : p c
    · rw [List.takeWhile_cons_of_pos hp, List.length_cons] at h
      cases k with
      | zero => simp
      | succ j =>
        rw [List.take_succ_cons, List.all_cons, hp, Bool.true_and]
        exact ih j (Nat.le_of_succ_le_succ h)
    · rw [List.takeWhile_cons_of_neg hp] at h
      simp only [List.length_nil, Nat.le_zero] at h
      subst h
      simp

lemma tryMatch_chunkOK :
    ∀ (items : List RItem) (s : List Char) (chs : List (List Char)),
      tryMatch items s = some chs → List.Forall₂ chunkOK items chs := by
  intro items
  induction items with
  | nil =>
    intro s chs h
    simp only [tryMatch, Option.some.injEq] at h
    subst h
    exact List.Forall₂.nil
  | cons it rest ih =>
    intro s chs h
    cases it with
    | lit alts =>
      simp only [tryMatch] at h
      obtain ⟨alt, halt, hfa⟩ := firstSome_some h
      by_cases hpre : alt.isPrefixOf s = true
      · rw [if_pos hpre] at hfa
        obtain ⟨r, hr, hmap⟩ := Option.map_eq_some'.mp hfa
        subst hmap
        exact List.Forall₂.cons halt (ih _ _ hr)
      · rw [if_neg hpre] at hfa
        exact Option.noConfusion hfa
    | cls greedy p =>
      simp only [tryMatch] at h
      obtain ⟨k, hk, hfa⟩ := firstSome_some h
      obtain ⟨r, hr, hmap⟩ := Option.map_eq_some'.mp hfa
      subst hmap
      have hkle : k ≤ (s.takeWhile p).length := by
        cases greedy <;> simp at hk <;> obtain ⟨i, hi, hki⟩ := hk <;> omega
      exact List.Forall₂.cons (take_all_of_le_takeWhile s k hkle) (ih _ _ hr)
    | anyLazy =>
      simp only [tryMatch] at h
      obtain ⟨k, hk, hfa⟩ := firstSome_some h
      obtain ⟨r, hr, hmap⟩ := Option.map_eq_some'.mp hfa
      subst hmap
      exact List.Forall₂.cons trivial (ih _ _ hr)

lemma searchFrom_chunkOK {items : List RItem} :
    ∀ {s : List Char} {chs : List (List Char)},
      searchFrom items s = some chs → List.Forall₂ chunkOK items chs := by
  intro s
  induction s with
  | nil =>
    intro chs h
    exact tryMatch_chunkOK items [] chs h
  | cons c cs ih =>
    intro chs h
    simp only [searchFrom] at h
    split at h
    · next heq => exact tryMatch_chunkOK items (c :: cs) chs (heq.trans (congrArg some (Option.some.inj h)))
    · exact ih h

lemma mem_of_mem_stripWs {c : Char} {s : List Char} (h : c ∈ stripWs s) :
    c ∈ s := by
  unfold stripWs at h
  rw [List.mem_reverse] at h
  have h1 : c ∈ (s.dropWhile pyWsB).reverse := (List.dropWhile_sublist _).mem h
  rw [List.mem_reverse] at h1
  exact (List.dropWhile_sublist _).mem h1

lemma azws_no_upper {c : Char} (h : azws c = true) :
    ¬('A' ≤ c ∧ c ≤ 'Z') := by
  rintro ⟨hA, hZ⟩
  simp only [azws, pyWsB, Bool.or_eq_true, Bool.and_eq_true,
    decide_eq_true_eq] at h
  rcases h with ⟨h1, -⟩ | h
  · exact absurd (le_trans h1 hZ) (by decide)
  · have hle : c ≤ ' ' := by
      rcases h with ((((h | h) | h) | h) | h) | h <;> subst h <;> decide
    exact absurd hA (not_le.mpr (lt_of_le_of_lt hle (by decide)))

lemma lit_chunk_no_upper {alts : List (List Char)} {ch : List Char}
    (hsub : ∀ a ∈ alts, a.all azws = true) (hm : ch ∈ alts) :
    ch.all azws = true := hsub ch hm

/-- The two extraction results of `parse_distance_query` only contain
characters of the class `[a-z\s]` (hence no uppercase letters). -/
lemma parse_distance_no_upper (q : String) :
    (∀ c ∈ (parse_distance_query q).1.data, ¬('A' ≤ c ∧ c ≤ 'Z')) ∧
    (∀ c ∈ (parse_distance_query q).2.data, ¬('A' ≤ c ∧ c ≤ 'Z')) := by
  cases h1 : searchFrom distPat1 (pyLower q).data with
  | some ch =>
    have hpair : parse_distance_query q =
        (String.mk (stripWs (ch.getD 4 [])), String.mk (stripWs (ch.getD 8 []))) := by
      simp only [parse_distance_query, h1]
    have hF := searchFrom_chunkOK h1
    unfold distPat1 at hF
    rcases hF with - | ⟨-, hF⟩
    rcases hF with - | ⟨-, hF⟩
    rcases hF with - | ⟨-, hF⟩
    rcases hF with - | ⟨-, hF⟩
    rcases hF with - | ⟨h4, hF⟩
    rcases hF with - | ⟨-, hF⟩
    rcases hF with - | ⟨-, hF⟩
    rcases hF with - | ⟨-, hF⟩
    rcases hF with - | ⟨h8, -⟩
    rw [hpair]
    constructor
    · intro c hc
      have hmem : c ∈ _ := mem_of_mem_stripWs hc
      exact azws_no_upper (List.all_eq_true.mp h4 c hmem)
    · intro c hc
      have hmem : c ∈ _ := mem_of_mem_stripWs hc
      exact azws_no_upper (List.all_eq_true.mp h8 c hmem)
  | none =>
    cases h2 : searchFrom distPat2 (pyLower q).data with
    | some ch =>
      have hpair : parse_distance_query q =
          (String.mk (stripWs (ch.getD 0 [])), String.mk (stripWs (ch.getD 4 []))) := by
        simp only [parse_distance_query, h1, h2]
      have hF := searchFrom_chunkOK h2
      unfold distPat2 at hF
      rcases hF with - | ⟨h0, hF⟩
      rcases hF with - | ⟨-, hF⟩
      rcases hF with - | ⟨-, hF⟩
      rcases hF with - | ⟨-, hF⟩
      rcases hF with - | ⟨h4, -⟩
      rw [hpair]
      constructor
      · intro c hc
        have hmem : c ∈ _ := mem_of_mem_stripWs hc
        exact azws_no_upper (List.all_eq_true.mp h0 c hmem)
      · intro c hc
        have hmem : c ∈ _ := mem_of_mem_stripWs hc
        exact azws_no_upper (List.all_eq_true.mp h4 c hmem)
    | none =>
      have hpair : parse_distance_query q = ("", "") := by
        simp only [parse_distance_query, h1, h2]
      rw [hpair]
      constructor <;> intro c hc <;> simp at hc

/-- C4: `parse_distance_query` tries its two patterns in order — a match of
the first pattern determines the result (capture groups 1 and 2, i.e. the
chunks of items 4 and 8, whitespace-stripped), the second pattern is used only
when the first fails, and when both fail the result is the pair of empty
strings; the results are lowercase (they never contain an uppercase letter);
and the two spec examples evaluate as stated. -/
theorem parse_distance_query_spec (q : String) :
    (∀ ch, searchFrom distPat1 (pyLower q).data = some ch →
      parse_distance_query q =
        (String.mk (stripWs (ch.getD 4 [])), String.mk (stripWs (ch.getD 8 [])))) ∧
    (searchFrom distPat1 (pyLower q).data = none →
      ∀ ch, searchFrom distPat2 (pyLower q).data = some ch →
        parse_distance_query q =
          (String.mk (stripWs (ch.getD 0 [])), String.mk (stripWs (ch.getD 4 [])))) ∧
    (searchFrom distPat1 (pyLower q).data = none →
      searchFrom distPat2 (pyLower q).data = none →
      parse_distance_query q = ("", "")) ∧
    (∀ c ∈ (parse_distance_query q).1.data, ¬('A' ≤ c ∧ c ≤ 'Z')) ∧
    (∀ c ∈ (parse_distance_query q).2.data, ¬('A' ≤ c ∧ c ≤ 'Z')) ∧
    parse_distance_query "distance between Singapore and Rotterdam" =
      ("singapore", "rotterdam") ∧
    parse_distance_query "Mumbai to Dubai" = ("mumbai", "dubai") := by
  refine ⟨fun ch h1 => ?_, fun h1 ch h2 => ?_, fun h1 h2 => ?_,
    (parse_distance_no_upper q).1, (parse_distance_no_upper q).2,
    by decide, by decide⟩
  · simp only [parse_distance_query, h1]
  · simp only [parse_distance_query, h1, h2]
  · simp only [parse_distance_query, h1, h2]

/-- Witness for C4: the no-match case, the no-uppercase property and the
second spec example, at concrete inputs. -/
theorem parse_distance_query_spec_witness :
    parse_distance_query "good morning" = ("", "") ∧
    ¬('A' ≤ 'm' ∧ 'm' ≤ 'Z') ∧
    parse_distance_query "Mumbai to Dubai" = ("mumbai", "dubai") :=
  ⟨(parse_distance_query_spec "good morning").2.2.1 (by decide) (by decide),
   (parse_distance_query_spec "Mumbai to Dubai").2.2.2.1 'm' (by decide),
   (parse_distance_query_spec "Mumbai to Dubai").2.2.2.2.2.2⟩

/-! ### C5: the numeric value of `haversine_nm` for Singapore-Rotterdam

The spec pins the value near 8,288 nm (the Suez sea-route figure); the
haversine formula on the gazetteer coordinates actually gives about 5,700 nm.
The bounds below are derived from the Taylor estimates `Real.sin_bound` /
`Real.cos_bound` and the numeric bounds on `π`. -/

lemma sin_within (z lo hi slo shi : ℝ) (h0 : 0 ≤ lo) (h1 : lo ≤ z) (h2 : z ≤ hi)
    (h3 : hi ≤ 1) (h4 : slo ≤ lo - hi ^ 3 / 6 - hi ^ 4 * (5 / 96))
    (h5 : hi - lo ^ 3 / 6 + hi ^ 4 * (5 / 96) ≤ shi) :
    slo ≤ Real.sin z ∧ Real.sin z ≤ shi := by
  have hz0 : 0 ≤ z := le_trans h0 h1
  have habs : |z| ≤ 1 := by
    rw [abs_of_nonneg hz0]
    linarith
  have hb := Real.sin_bound habs
  rw [abs_of_nonneg hz0, abs_le] at hb
  have h3l : lo ^ 3 ≤ z ^ 3 := pow_le_pow_left₀ h0 h1 3
  have h3u : z ^ 3 ≤ hi ^ 3 := pow_le_pow_left₀ hz0 h2 3
  have h4u : z ^ 4 ≤ hi ^ 4 := pow_le_pow_left₀ hz0 h2 4
  constructor
  · linarith [hb.1]
  · linarith [hb.2]

lemma cos_within (z lo hi clo chi : ℝ) (h0 : 0 ≤ lo) (h1 : lo ≤ z) (h2 : z ≤ hi)
    (h3 : hi ≤ 1) (h4 : clo ≤ 1 - hi ^ 2 / 2 - hi ^ 4 * (5 / 96))
    (h5 : 1 - lo ^ 2 / 2 + hi ^ 4 * (5 / 96) ≤ chi) :
    clo ≤ Real.cos z ∧ Real.cos z ≤ chi := by
  have hz0 : 0 ≤ z := le_trans h0 h1
  have habs : |z| ≤ 1 := by
    rw [abs_of_nonneg hz0]
    linarith
  have hb := Real.cos_bound habs
  rw [abs_of_nonneg hz0, abs_le] at hb
  have h2l : lo ^ 2 ≤ z ^ 2 := pow_le_pow_left₀ h0 h1 2
  have h2u : z ^ 2 ≤ hi ^ 2 := pow_le_pow_left₀ hz0 h2 2
  have h4u : z ^ 4 ≤ hi ^ 4 := pow_le_pow_left₀ hz0 h2 4
  constructor
  · linarith [hb.1]
  · linarith [hb.2]

lemma cos_double_sin (x : ℝ) : Real.cos (2 * x) = 1 - 2 * Real.sin x ^ 2 := by
  have h := Real.sin_sq_add_cos_sq x
  rw [Real.cos_two_mul']
  linarith

set_option maxHeartbeats 1000000 in
/-- Interval bounds on the haversine intermediate value for the
Singapore-Rotterdam gazetteer coordinates. -/
lemma haversineA_sr_bounds :
    0.53309 ≤ haversineA 1.264 103.822 51.955 4.133 ∧
    haversineA 1.264 103.822 51.955 4.133 ≤ 0.55071 := by
  have hpi1 := Real.pi_gt_d6
  have hpi2 := Real.pi_lt_d6
  -- half latitude difference: radians (51.955 - 1.264) / 2 = 50.691 π / 360
  have ex1 : radians (51.955 - 1.264) / 2 = 50.691 * Real.pi / 360 := by
    unfold radians
    rw [show (51.955 : ℝ) - 1.264 = 50.691 by norm_num]
    ring
  have hs1 := sin_within (50.691 * Real.pi / 360) 0.442362 0.442363 0.4259 0.43
    (by norm_num) (by linarith) (by linarith) (by norm_num) (by norm_num)
    (by norm_num)
  have hA : 0.18139 ≤ Real.sin (radians (51.955 - 1.264) / 2) ^ 2 ∧
      Real.sin (radians (51.955 - 1.264) / 2) ^ 2 ≤ 0.1849 := by
    rw [ex1]
    constructor <;> nlinarith [hs1.1, hs1.2]
  -- first latitude: radians 1.264 = 1.264 π / 180
  have ep1 : radians 1.264 = 1.264 * Real.pi / 180 := rfl
  have hB : 0.99975 ≤ Real.cos (radians 1.264) ∧ Real.cos (radians 1.264) ≤ 1 := by
    rw [ep1]
    exact cos_within (1.264 * Real.pi / 180) 0.02206 0.022061 0.99975 1
      (by norm_num) (by linarith) (by linarith) (by norm_num) (by norm_num)
      (by norm_num)
  -- second latitude via the double angle at 51.955 π / 360
  have ec : radians 51.955 = 2 * (51.955 * Real.pi / 360) := by
    unfold radians
    ring
  have hsh2 := sin_within (51.955 * Real.pi / 360) 0.453392 0.453393 0.43565 0.44007
    (by norm_num) (by linarith) (by linarith) (by norm_num) (by norm_num)
    (by norm_num)
  have hC : 0.61267 ≤ Real.cos (radians 51.955) ∧
      Real.cos (radians 51.955) ≤ 0.62043 := by
    rw [ec, cos_double_sin]
    constructor <;> nlinarith [hsh2.1, hsh2.2]
  -- half longitude difference via the double angle at 99.689 π / 720
  have ed : radians (4.133 - 103.822) / 2 = -(2 * (99.689 * Real.pi / 720)) := by
    unfold radians
    rw [show (4.133 : ℝ) - 103.822 = -99.689 by norm_num]
    ring
  have hsh3 := sin_within (99.689 * Real.pi / 720) 0.434975 0.434976 0.41939 0.42313
    (by norm_num) (by linarith) (by linarith) (by norm_num) (by norm_num)
    (by norm_num)
  have hch3 := cos_within (99.689 * Real.pi / 720) 0.434975 0.434976 0.90353 0.90727
    (by norm_num) (by linarith) (by linarith) (by norm_num) (by norm_num)
    (by norm_num)
  have hsy : 0.7578 ≤ 2 * Real.sin (99.689 * Real.pi / 720) *
        Real.cos (99.689 * Real.pi / 720) ∧
      2 * Real.sin (99.689 * Real.pi / 720) *
        Real.cos (99.689 * Real.pi / 720) ≤ 0.7678 := by
    constructor <;> nlinarith [hsh3.1, hsh3.2, hch3.1, hch3.2]
  have hD : 0.5742 ≤ Real.sin (radians (4.133 - 103.822) / 2) ^ 2 ∧
      Real.sin (radians (4.133 - 103.822) / 2) ^ 2 ≤ 0.5896 := by
    rw [ed, Real.sin_neg, neg_sq, Real.sin_two_mul]
    constructor <;> nlinarith [hsy.1, hsy.2]
  -- assemble the product and the sum
  have hBC : 0.612516 ≤ Real.cos (radians 1.264) * Real.cos (radians 51.955) ∧
      Real.cos (radians 1.264) * Real.cos (radians 51.955) ≤ 0.62043 := by
    constructor <;> nlinarith [hB.1, hB.2, hC.1, hC.2]
  have hP : 0.35170 ≤ Real.cos (radians 1.264) * Real.cos (radians 51.955) *
        Real.sin (radians (4.133 - 103.822) / 2) ^ 2 ∧
      Real.cos (radians 1.264) * Real.cos (radians 51.955) *
        Real.sin (radians (4.133 - 103.822) / 2) ^ 2 ≤ 0.36581 := by
    constructor <;> nlinarith [hBC.1, hBC.2, hD.1, hD.2]
  unfold haversineA
  constructor
  · linarith [hA.1, hP.1]
  · linarith [hA.2, hP.2]

set_option maxHeartbeats 1000000 in
/-- Two-sided bounds on the Singapore-Rotterdam haversine distance:
between 5,580 and 5,810 nautical miles. -/
lemma sing_rott_nm_bounds :
    5580 < haversine_nm 1.264 103.822 51.955 4.133 ∧
    haversine_nm 1.264 103.822 51.955 4.133 < 5810 := by
  have hpi1 := Real.pi_gt_d6
  unfold haversine_nm
  set a := haversineA 1.264 103.822 51.955 4.133 with ha
  obtain ⟨halo, hahi⟩ := haversineA_sr_bounds
  rw [← ha] at halo hahi
  have hsub : (0.44929 : ℝ) ≤ 1 - a := by linarith
  have hsq2pos : 0 < Real.sqrt (1 - a) := Real.sqrt_pos.mpr (by linarith)
  -- the ratio sqrt a / sqrt (1-a) lies in [1.068, 1.108]
  have hT : Real.sqrt a ≤ 1.108 * Real.sqrt (1 - a) := by
    have h1 : a ≤ 1.108 ^ 2 * (1 - a) := by nlinarith
    calc Real.sqrt a ≤ Real.sqrt (1.108 ^ 2 * (1 - a)) := Real.sqrt_le_sqrt h1
      _ = 1.108 * Real.sqrt (1 - a) := by
          rw [Real.sqrt_mul (by norm_num : (0:ℝ) ≤ 1.108 ^ 2),
            Real.sqrt_sq (by norm_num : (0:ℝ) ≤ 1.108)]
  have hS : 1.068 * Real.sqrt (1 - a) ≤ Real.sqrt a := by
    have h1 : 1.068 ^ 2 * (1 - a) ≤ a := by nlinarith
    calc 1.068 * Real.sqrt (1 - a) = Real.sqrt (1.068 ^ 2 * (1 - a)) := by
          rw [Real.sqrt_mul (by norm_num : (0:ℝ) ≤ 1.068 ^ 2),
            Real.sqrt_sq (by norm_num : (0:ℝ) ≤ 1.068)]
      _ ≤ Real.sqrt a := Real.sqrt_le_sqrt h1
  have ht_hi : Real.sqrt a / Real.sqrt (1 - a) ≤ 1.108 := by
    rw [div_le_iff₀ hsq2pos]
    linarith
  have ht_lo : (1.068 : ℝ) ≤ Real.sqrt a / Real.sqrt (1 - a) := by
    rw [le_div_iff₀ hsq2pos]
    linarith
  -- tan 0.812 ≤ 1.068 via the double angle at 0.406
  have hs406 := sin_within 0.406 0.406 0.406 0.39343 0.39627 (by norm_num)
    (by norm_num) (by norm_num) (by norm_num) (by norm_num) (by norm_num)
  have hc406 := cos_within 0.406 0.406 0.406 0.91616 0.919 (by norm_num)
    (by norm_num) (by norm_num) (by norm_num) (by norm_num) (by norm_num)
  have e812 : (0.812 : ℝ) = 2 * 0.406 := by norm_num
  have hsin812 : Real.sin 0.812 ≤ 0.72835 := by
    rw [e812, Real.sin_two_mul]
    nlinarith [hs406.1, hs406.2, hc406.1, hc406.2]
  have hcos812 : (0.68594 : ℝ) ≤ Real.cos 0.812 := by
    rw [e812, cos_double_sin]
    nlinarith [hs406.1, hs406.2]
  have hcos812pos : (0 : ℝ) < Real.cos 0.812 := by linarith
  have htan812 : Real.tan 0.812 ≤ 1.068 := by
    rw [Real.tan_eq_sin_div_cos, div_le_iff₀ hcos812pos]
    linarith
  -- 1.108 ≤ tan 0.844 via the double angle at 0.422
  have hs422 := sin_within 0.422 0.422 0.422 0.40782 0.41113 (by norm_num)
    (by norm_num) (by norm_num) (by norm_num) (by norm_num) (by norm_num)
  have e844 : (0.844 : ℝ) = 2 * 0.422 := by norm_num
  have hc422 := cos_within 0.422 0.422 0.422 0.90930 0.91261 (by norm_num)
    (by norm_num) (by norm_num) (by norm_num) (by norm_num) (by norm_num)
  have hsin844 : (0.74166 : ℝ) ≤ Real.sin 0.844 := by
    rw [e844, Real.sin_two_mul]
    nlinarith [hs422.1, hs422.2, hc422.1, hc422.2]
  have hcos844 : Real.cos 0.844 ≤ 0.66737 := by
    rw [e844, cos_double_sin]
    nlinarith [hs422.1, hs422.2]
  have hcos844pos : (0 : ℝ) < Real.cos 0.844 := by
    rw [e844, cos_double_sin]
    nlinarith [hs422.1, hs422.2]
  have htan844 : (1.108 : ℝ) ≤ Real.tan 0.844 := by
    rw [Real.tan_eq_sin_div_cos, le_div_iff₀ hcos844pos]
    linarith
  -- transfer through the strictly monotone arctan
  have harc_lo : (0.812 : ℝ) ≤ Real.arctan (Real.sqrt a / Real.sqrt (1 - a)) := by
    have h1 : Real.arctan (Real.tan 0.812) = 0.812 :=
      Real.arctan_tan (by linarith) (by linarith)
    rw [← h1]
    exact Real.arctan_strictMono.monotone (le_trans htan812 ht_lo)
  have harc_hi : Real.arctan (Real.sqrt a / Real.sqrt (1 - a)) ≤ 0.844 := by
    have h1 : Real.arctan (Real.tan 0.844) = 0.844 :=
      Real.arctan_tan (by linarith) (by linarith)
    rw [← h1]
    exact Real.arctan_strictMono.monotone (le_trans ht_hi htan844)
  rw [atan2_of_pos hsq2pos]
  constructor
  · linarith [harc_lo]
  · linarith [harc_hi]

/-- C5 counterexample: the haversine distance between the gazetteer
coordinates of Singapore and Rotterdam is below 6,000 nautical miles, so it is
not in the roughly-8,288 / approximately-8,300 range the claim states (that
figure is the Suez sea-route length, not the great-circle length). -/
theorem haversine_singapore_rotterdam_not_8300 :
    portsLookup "singapore" = some (1.264, 103.822) ∧
    portsLookup "rotterdam" = some (51.955, 4.133) ∧
    haversine_nm 1.264 103.822 51.955 4.133 < 6000 :=
  ⟨rfl, rfl, by linarith [sing_rott_nm_bounds.2]⟩

/-- C5 amended: `haversine_nm` applied to the gazetteer coordinates of
`"singapore"` (1.264, 103.822) and `"rotterdam"` (51.955, 4.133) yields
roughly 5,700 nautical miles — provably between 5,580 and 5,810 nm. -/
theorem haversine_singapore_rotterdam_approx_5700 :
    portsLookup "singapore" = some (1.264, 103.822) ∧
    portsLookup "rotterdam" = some (51.955, 4.133) ∧
    5580 < haversine_nm 1.264 103.822 51.955 4.133 ∧
    haversine_nm 1.264 103.822 51.955 4.133 < 5810 :=
  ⟨rfl, rfl, sing_rott_nm_bounds.1, sing_rott_nm_bounds.2⟩

end Maritime
